import Mathlib

/-!
Shallow embedding of `src/dangerzone/util.py` (the `Stopwatch` class and the
`nonblocking_read` function), together with theorems settling the claims about
them.

Modelling conventions:
* Wall-clock readings of `time.monotonic()` are rationals (`Rat`).  Every
  operation that reads the clock in Python takes the current reading `now`
  as an explicit argument.
* Python exceptions become an explicit error type `PyExc`; a raising function
  returns `Except PyExc _`.
* Bytes are modelled as naturals; a byte string is a `List Nat`.
* The OS behaviour observed by `nonblocking_read` (one `sel.select` outcome and,
  on readiness, one `os.read` outcome per loop iteration, plus the monotonic
  clock reading at which `sw.remaining` is evaluated that iteration) is
  supplied as a script: a `List Step` consumed one entry per iteration.
-/

set_option autoImplicit false

/-- The Python exceptions raised by the embedded code. -/
inductive PyExc where
  | valueError (msg : String)
  | runtimeError (msg : String)
  | timeoutError (msg : String)
  | osError
  | assertionError
deriving DecidableEq, Repr

/-- The `Stopwatch` class: fields `timeout`, `start_time`, `end_time`
(`Optional[float]` in the source, rationals here). -/
structure Stopwatch where
  timeout : Option Rat
  start_time : Option Rat
  end_time : Option Rat
deriving DecidableEq, Repr

/-- `Stopwatch.__init__(timeout)`: `start_time` and `end_time` begin as `None`. -/
def Stopwatch.init (timeout : Option Rat) : Stopwatch :=
  ⟨timeout, none, none⟩

/-- Python truthiness dispatch of `x or y` where `x : Optional[float]`:
the result is `y` exactly when `x` is `None` or equals `0.0` (both falsy). -/
def pyOr (x : Option Rat) (y : Rat) : Rat :=
  match x with
  | none => y
  | some v => if v = 0 then y else v

/-- `Stopwatch.elapsed` evaluated when the monotonic clock reads `now`:
`(self.end_time or time.monotonic()) - self.start_time`, raising
`RuntimeError` if `start_time` is `None`. -/
def Stopwatch.elapsedAt (sw : Stopwatch) (now : Rat) : Except PyExc Rat :=
  match sw.start_time with
  | none => .error (.runtimeError "The stopwatch has not started yet")
  | some st => .ok (pyOr sw.end_time now - st)

/-- `Stopwatch.remaining` evaluated when the monotonic clock reads `now`:
raises `RuntimeError` without a configured timeout, computes
`timeout - elapsed`, raises `TimeoutError` when that is negative (the message
in the source is a literal string that is never interpolated), and returns it
otherwise. -/
def Stopwatch.remainingAt (sw : Stopwatch) (now : Rat) : Except PyExc Rat :=
  match sw.timeout with
  | none => .error (.runtimeError "Cannot calculate remaining time without timeout")
  | some t =>
    match sw.elapsedAt now with
    | .error e => .error e
    | .ok el =>
      let remaining := t - el
      if remaining < 0 then
        .error (.timeoutError "Timeout (\x7btimeout\x7ds) has been surpassed by \x7b-remaining\x7ds")
      else
        .ok remaining

/-- `Stopwatch.start()` / `Stopwatch.__enter__()` when the clock reads `now`:
sets `start_time` and nothing else (`end_time` is left untouched). -/
def Stopwatch.startAt (sw : Stopwatch) (now : Rat) : Stopwatch :=
  { sw with start_time := some now }

/-- `Stopwatch.stop()` / `Stopwatch.__exit__()` when the clock reads `now`:
sets `end_time` and nothing else. -/
def Stopwatch.stopAt (sw : Stopwatch) (now : Rat) : Stopwatch :=
  { sw with end_time := some now }

/-- Outcome of one `os.read(fd, size)` call: a chunk of bytes (empty = EOF),
or an `OSError`. -/
inductive ReadResult where
  | chunk (data : List Nat)
  | osError
deriving DecidableEq, Repr

/-- Outcome of one `sel.select(...)` call: no ready events (`[]`), or the
descriptor is ready and the subsequent `os.read` behaves as `r`. -/
inductive SelectOutcome where
  | timeoutEmpty
  | ready (r : ReadResult)
deriving DecidableEq, Repr

/-- One scripted loop iteration of `nonblocking_read`: the monotonic clock
reading at which `sw.remaining` is evaluated, and the select/read outcome. -/
structure Step where
  now : Rat
  sel : SelectOutcome
deriving DecidableEq, Repr

/-- Result of the `while True` loop of `nonblocking_read`:
normal termination via one of the two `break`s, a raised exception, or the
script ran out while the loop would have kept iterating. -/
inductive RunResult where
  | ok (buf : List Nat)
  | err (e : PyExc)
  | outOfScript (buf : List Nat) (size : Int)
deriving DecidableEq, Repr

/-- The `while True` loop of `nonblocking_read` (source lines 178-195), with
state `buf` (accumulated bytes) and `size` (bytes still wanted; the source
mutates the `size` parameter in place).  Each iteration: evaluate
`sw.remaining` (its exception propagates), call `sel.select`; on `[]` raise
`TimeoutError` naming `len(buf)` and the current `size`; on readiness perform
`os.read(fd, size)`, append the chunk, `break` on EOF, else decrement `size`,
assert `size >= 0`, and `break` when `size == 0`. -/
def readLoop (sw : Stopwatch) (buf : List Nat) (size : Int) :
    List Step → RunResult
  | [] => .outOfScript buf size
  | step :: rest =>
    match sw.remainingAt step.now with
    | .error e => .err e
    | .ok _ =>
      match step.sel with
      | .timeoutEmpty =>
        .err (.timeoutError ("Timeout expired while reading " ++
          toString buf.length ++ "/" ++ toString size ++ " bytes"))
      | .ready .osError => .err .osError
      | .ready (.chunk data) =>
        let buf2 := buf ++ data
        if data.isEmpty then
          .ok buf2
        else
          let size2 := size - data.length
          if size2 < 0 then
            .err .assertionError
          else if size2 = 0 then
            .ok buf2
          else
            readLoop sw buf2 size2 rest

/-- The `(len(buf), size)` pairs at the entry of each executed loop iteration
of `readLoop` (same recursion structure); `size` of such a pair is the byte
count handed to `os.read` should that iteration reach the read. -/
def readLoopStates (sw : Stopwatch) (buf : List Nat) (size : Int) :
    List Step → List (Nat × Int)
  | [] => [(buf.length, size)]
  | step :: rest =>
    (buf.length, size) ::
    (match sw.remainingAt step.now with
     | .error _ => []
     | .ok _ =>
       match step.sel with
       | .timeoutEmpty => []
       | .ready .osError => []
       | .ready (.chunk data) =>
         if data.isEmpty then
           []
         else
           let size2 := size - data.length
           if size2 < 0 then
             []
           else if size2 = 0 then
             []
           else
             readLoopStates sw (buf ++ data) size2 rest)

/-- The script models an OS whose every (potentially consumed) read returns at
most the number of bytes requested at that point; checking stops where the
loop necessarily stops (EOF or request fully satisfied). -/
def scriptBounded (size : Int) : List Step → Bool
  | [] => true
  | step :: rest =>
    match step.sel with
    | .timeoutEmpty => true
    | .ready .osError => true
    | .ready (.chunk data) =>
      decide ((data.length : Int) ≤ size) &&
      (data.isEmpty || decide (size - (data.length : Int) = 0) ||
        scriptBounded (size - data.length) rest)

/-- No scripted read ever returns an empty chunk (the descriptor never
reaches end-of-stream). -/
def noEmptyChunks : List Step → Bool
  | [] => true
  | step :: rest =>
    (match step.sel with
     | .ready (.chunk data) => !data.isEmpty
     | _ => true) && noEmptyChunks rest

/-- The stopwatch `nonblocking_read` runs: `Stopwatch(timeout)` started when
the clock reads `startT`, never stopped. -/
def swInit (timeout startT : Rat) : Stopwatch :=
  (Stopwatch.init (some timeout)).startAt startT

/-- Result of a whole `nonblocking_read` call, with the observable selector
state: whether `sel.register` ran, and whether `sel.close()` ran. -/
structure NBResult where
  result : RunResult
  selRegistered : Bool
  selClosed : Bool
deriving DecidableEq, Repr

/-- `nonblocking_read(fd, size, timeout)` (source lines 138-198).  `blocking`
is the value of `os.get_blocking(fd)`; `startT` is the clock reading at
`sw.start()`; `script` scripts the loop iterations.  Validation raises
`ValueError` before the selector is registered; the selector is registered
before the loop; `sel.close()` runs only after the loop `break`s (a raised
exception propagates without reaching it). -/
def nonblocking_read (blocking : Bool) (size : Int) (timeout : Rat)
    (startT : Rat) (script : List Step) : NBResult :=
  if blocking then
    ⟨.err (.valueError "Expected a non-blocking file descriptor"), false, false⟩
  else if size ≤ 0 then
    ⟨.err (.valueError ("Expected a positive size value (got " ++
      toString size ++ ")")), false, false⟩
  else if timeout ≤ 0 then
    ⟨.err (.valueError ("Expected a positive timeout value (got " ++
      toString timeout ++ ")")), false, false⟩
  else
    match readLoop (swInit timeout startT) [] size script with
    | .ok buf => ⟨.ok buf, true, true⟩
    | r => ⟨r, true, false⟩

/-! ## Theorems about the Stopwatch -/

/-- Claim C6: for every started Stopwatch, `remaining` fails with a
`RuntimeError` (precondition violation) when no timeout was configured;
otherwise it computes `timeout - elapsed`, raises a `TimeoutError`
(deadline exceeded) when that is negative, and returns it when it is
non-negative. -/
theorem stopwatch_remaining_spec (sw : Stopwatch) (st now : Rat)
    (hstart : sw.start_time = some st) :
    (sw.timeout = none →
      sw.remainingAt now
        = .error (.runtimeError "Cannot calculate remaining time without timeout"))
    ∧ (∀ T e, sw.timeout = some T → sw.elapsedAt now = .ok e →
        ((T - e < 0 → ∃ m, sw.remainingAt now = .error (.timeoutError m))
          ∧ (0 ≤ T - e → sw.remainingAt now = .ok (T - e)))) := by
  constructor
  · intro hto
    simp [Stopwatch.remainingAt, hto]
  · intro T e hT he
    constructor
    · intro hneg
      refine ⟨"Timeout (\x7btimeout\x7ds) has been surpassed by \x7b-remaining\x7ds", ?_⟩
      have hlt : T < e := by linarith
      simp [Stopwatch.remainingAt, hT, he, if_pos hneg, hlt]
    · intro hpos
      simp [Stopwatch.remainingAt, hT, he, not_lt.mpr hpos]

/-- Witness for C6: a stopwatch with timeout 1 started at time 0 and queried
at time 0 has 1 - 0 remaining. -/
theorem stopwatch_remaining_spec_witness :
    (Stopwatch.mk (some 1) (some 0) none).remainingAt 0 = .ok (1 - 0) :=
  ((stopwatch_remaining_spec (Stopwatch.mk (some 1) (some 0) none) 0 0 rfl).2 1 0 rfl
    (by norm_num [Stopwatch.elapsedAt, pyOr])).2 (by norm_num)

/-- Counterexample to claim C7: a started stopwatch with timeout 1, queried
when elapsed time is exactly 1 (the boundary elapsed = timeout), does not
raise: `remaining` returns 0. -/
theorem remaining_at_boundary_counterexample :
    (Stopwatch.mk (some 1) (some 0) none).timeout = some 1
    ∧ (Stopwatch.mk (some 1) (some 0) none).elapsedAt 1 = .ok 1
    ∧ (Stopwatch.mk (some 1) (some 0) none).remainingAt 1 = .ok 0 := by
  refine ⟨rfl, ?_, ?_⟩
  · norm_num [Stopwatch.elapsedAt, pyOr]
  · norm_num [Stopwatch.remainingAt, Stopwatch.elapsedAt, pyOr]

/-- Claim C7 amended: for a started Stopwatch with configured timeout T > 0,
`remaining` raises the deadline-exceeded `TimeoutError` exactly on the strict
side, elapsed > timeout; at elapsed exactly equal to timeout it returns 0
without error. -/
theorem remaining_deadline_strict (sw : Stopwatch) (T st e now : Rat)
    (hT : sw.timeout = some T) (hstart : sw.start_time = some st) (hTpos : 0 < T)
    (he : sw.elapsedAt now = .ok e) :
    (T < e → sw.remainingAt now
        = .error (.timeoutError
            "Timeout (\x7btimeout\x7ds) has been surpassed by \x7b-remaining\x7ds"))
    ∧ (e = T → sw.remainingAt now = .ok 0) := by
  constructor
  · intro hlt
    have hneg : T - e < 0 := by linarith
    simp [Stopwatch.remainingAt, hT, he, if_pos hneg, hlt]
  · intro heq
    subst heq
    simp [Stopwatch.remainingAt, hT, he]

/-- Witness for the amended C7: timeout 1, started at 0, queried at time 3
(elapsed 3 > 1) raises the deadline-exceeded error. -/
theorem remaining_deadline_strict_witness :
    (Stopwatch.mk (some 1) (some 0) none).remainingAt 3
      = .error (.timeoutError
          "Timeout (\x7btimeout\x7ds) has been surpassed by \x7b-remaining\x7ds") :=
  (remaining_deadline_strict (Stopwatch.mk (some 1) (some 0) none) 1 0 3 3 rfl rfl
    (by norm_num) (by norm_num [Stopwatch.elapsedAt, pyOr])).1 (by norm_num)

/-- Counterexample to claim C9: a stopwatch started at monotonic time 0 and
stopped at monotonic time 0 has `end_time` set (to 0, a falsy float), yet
`elapsed` queried at time 5 returns 5 (the current time enters the result) and
queried at time 6 returns 6: the result is not the frozen
`end_time - start_time = 0` and is not independent of the query time. -/
theorem elapsed_frozen_counterexample :
    (((Stopwatch.init none).startAt 0).stopAt 0).end_time = some 0
    ∧ (((Stopwatch.init none).startAt 0).stopAt 0).elapsedAt 5 = .ok 5
    ∧ (((Stopwatch.init none).startAt 0).stopAt 0).elapsedAt 6 = .ok 6
    ∧ (((Stopwatch.init none).startAt 0).stopAt 0).elapsedAt 5 ≠ .ok (0 - 0) := by
  refine ⟨rfl, ?_, ?_, ?_⟩
  · norm_num [Stopwatch.elapsedAt, Stopwatch.init, Stopwatch.startAt, Stopwatch.stopAt, pyOr]
  · norm_num [Stopwatch.elapsedAt, Stopwatch.init, Stopwatch.startAt, Stopwatch.stopAt, pyOr]
  · norm_num [Stopwatch.elapsedAt, Stopwatch.init, Stopwatch.startAt, Stopwatch.stopAt, pyOr]

/-- Claim C9 amended: for every started and stopped Stopwatch whose recorded
`end_time` is nonzero (Python's `end_time or time.monotonic()` treats the
float 0.0 as falsy and then ignores `end_time`), `elapsed` returns the frozen
value `end_time - start_time`, independent of the time at which it is
queried. -/
theorem elapsed_frozen_amended (sw : Stopwatch) (st e now now2 : Rat)
    (hstart : sw.start_time = some st) (hend : sw.end_time = some e)
    (hne : e ≠ 0) :
    sw.elapsedAt now = .ok (e - st) ∧ sw.elapsedAt now = sw.elapsedAt now2 := by
  constructor
  · simp [Stopwatch.elapsedAt, hstart, hend, pyOr, hne]
  · simp [Stopwatch.elapsedAt, hstart, hend, pyOr, hne]

/-- Witness for the amended C9: started at 1, stopped at 4, queried at 9:
elapsed is the frozen 4 - 1. -/
theorem elapsed_frozen_amended_witness :
    (Stopwatch.mk none (some 1) (some 4)).elapsedAt 9 = .ok (4 - 1)
    ∧ (Stopwatch.mk none (some 1) (some 4)).elapsedAt 9
      = (Stopwatch.mk none (some 1) (some 4)).elapsedAt 100 :=
  elapsed_frozen_amended (Stopwatch.mk none (some 1) (some 4)) 1 4 9 100 rfl rfl
    (by norm_num)

/-- Counterexample to claim C10: start at 0, stop at 0 (so `end_time` is the
falsy 0.0), then start again at 1; `elapsed` queried at time 3 returns 2 -
exactly the time elapsed since the new start - and not the claimed frozen
`end_time - start_time = 0 - 1`. -/
theorem restart_stale_end_counterexample :
    ((((Stopwatch.init none).startAt 0).stopAt 0).startAt 1).end_time = some 0
    ∧ ((((Stopwatch.init none).startAt 0).stopAt 0).startAt 1).elapsedAt 3 = .ok 2
    ∧ ((((Stopwatch.init none).startAt 0).stopAt 0).startAt 1).elapsedAt 3 ≠ .ok (0 - 1) := by
  refine ⟨rfl, ?_, ?_⟩
  · norm_num [Stopwatch.elapsedAt, Stopwatch.init, Stopwatch.startAt, Stopwatch.stopAt, pyOr]
  · norm_num [Stopwatch.elapsedAt, Stopwatch.init, Stopwatch.startAt, Stopwatch.stopAt, pyOr]

/-- Claim C10 amended: `start()` never clears `end_time`; consequently, for a
stopped Stopwatch whose stale `end_time` is nonzero, a restart followed by an
`elapsed` query returns `end_time - new start_time` - frozen at the stale
`end_time` and negative whenever the new start is later - rather than the
time elapsed since the new start. -/
theorem restart_keeps_end_time (sw : Stopwatch) (e s2 now : Rat)
    (hend : sw.end_time = some e) (hne : e ≠ 0) :
    (sw.startAt s2).end_time = some e
    ∧ (sw.startAt s2).elapsedAt now = .ok (e - s2) := by
  constructor
  · simp [Stopwatch.startAt, hend]
  · simp [Stopwatch.elapsedAt, Stopwatch.startAt, hend, pyOr, hne]

/-- Witness for the amended C10: stopped at 2, restarted at 5, queried at 9:
elapsed is the frozen (and negative) 2 - 5. -/
theorem restart_keeps_end_time_witness :
    ((Stopwatch.mk none (some 0) (some 2)).startAt 5).end_time = some 2
    ∧ ((Stopwatch.mk none (some 0) (some 2)).startAt 5).elapsedAt 9 = .ok (2 - 5) :=
  restart_keeps_end_time (Stopwatch.mk none (some 0) (some 2)) 2 5 9 rfl (by norm_num)

/-! ## Theorems about nonblocking_read -/

/-- Claim C5: with a blocking descriptor, a non-positive size, or a
non-positive timeout, `nonblocking_read` raises `ValueError` before any I/O:
the selector is never registered, the result does not depend on the scripted
OS behaviour (no poll or read is consumed), and no `TimeoutError` is ever
raised for such arguments. -/
theorem validation_before_io (blocking : Bool) (size : Int) (timeout startT : Rat)
    (script : List Step) (h : blocking = true ∨ size ≤ 0 ∨ timeout ≤ 0) :
    (∃ m, (nonblocking_read blocking size timeout startT script).result
      = .err (.valueError m))
    ∧ (nonblocking_read blocking size timeout startT script).selRegistered = false
    ∧ nonblocking_read blocking size timeout startT script
      = nonblocking_read blocking size timeout startT []
    ∧ ∀ m, (nonblocking_read blocking size timeout startT script).result
      ≠ .err (.timeoutError m) := by
  unfold nonblocking_read
  split_ifs with h1 h2 h3
  · simp
  · simp
  · simp
  · exact absurd h (by push_neg; exact ⟨by simpa using h1, not_le.mp h2, not_le.mp h3⟩)

/-- Witness for C5: `nonblocking_read` on a non-blocking descriptor with
size 0 raises `ValueError`, registers nothing, ignores the script, and raises
no timeout. -/
theorem validation_before_io_witness :
    (∃ m, (nonblocking_read false 0 1 0 [⟨0, .timeoutEmpty⟩]).result
      = .err (.valueError m))
    ∧ (nonblocking_read false 0 1 0 [⟨0, .timeoutEmpty⟩]).selRegistered = false
    ∧ nonblocking_read false 0 1 0 [⟨0, .timeoutEmpty⟩]
      = nonblocking_read false 0 1 0 []
    ∧ ∀ m, (nonblocking_read false 0 1 0 [⟨0, .timeoutEmpty⟩]).result
      ≠ .err (.timeoutError m) :=
  validation_before_io false 0 1 0 [⟨0, .timeoutEmpty⟩]
    (Or.inr (Or.inl (by norm_num)))

/-- Claim C1, evaluated at failing inputs: on all three non-success exits of
`nonblocking_read` - the poll reporting no events, an OS-level read error,
and the deadline-exceeded error raised by `sw.remaining` - the exception
propagates with the selector registered but never closed (`sel.close()` on
source line 197 is reached only after the loop `break`s normally). -/
theorem selector_leak_on_error_paths :
    nonblocking_read false 5 1 0 [⟨0, .timeoutEmpty⟩]
      = ⟨.err (.timeoutError "Timeout expired while reading 0/5 bytes"), true, false⟩
    ∧ nonblocking_read false 2 1 0 [⟨0, .ready .osError⟩]
      = ⟨.err .osError, true, false⟩
    ∧ nonblocking_read false 2 1 0 [⟨9, .timeoutEmpty⟩]
      = ⟨.err (.timeoutError
          "Timeout (\x7btimeout\x7ds) has been surpassed by \x7b-remaining\x7ds"),
          true, false⟩ := by
  refine ⟨?_, ?_, ?_⟩
  · norm_num [nonblocking_read, readLoop, swInit, Stopwatch.remainingAt,
      Stopwatch.elapsedAt, Stopwatch.init, Stopwatch.startAt, pyOr]
    rfl
  · norm_num [nonblocking_read, readLoop, swInit, Stopwatch.remainingAt,
      Stopwatch.elapsedAt, Stopwatch.init, Stopwatch.startAt, pyOr]
  · norm_num [nonblocking_read, readLoop, swInit, Stopwatch.remainingAt,
      Stopwatch.elapsedAt, Stopwatch.init, Stopwatch.startAt, pyOr]

/-- Counterexample to claim C2: requesting 10 bytes with 4 already
accumulated, a timeout reports "4/6" - accumulated versus bytes still
wanted - not "4/10", accumulated versus the originally requested total. -/
theorem timeout_error_counts_counterexample :
    (nonblocking_read false 10 1 0
        [⟨0, .ready (.chunk [1, 2, 3, 4])⟩, ⟨0, .timeoutEmpty⟩]).result
      = .err (.timeoutError "Timeout expired while reading 4/6 bytes")
    ∧ "Timeout expired while reading 4/6 bytes"
      ≠ "Timeout expired while reading 4/10 bytes" := by
  constructor
  · norm_num [nonblocking_read, readLoop, swInit, Stopwatch.remainingAt,
      Stopwatch.elapsedAt, Stopwatch.init, Stopwatch.startAt, pyOr]
    rfl
  · decide

/-- Claim C2 amended: on the timeout path where the poll reports no events,
the `TimeoutError` reports the bytes accumulated so far versus the bytes
still wanted at that iteration (the mutated `size`, not the original request);
on the timeout path where the deadline has already passed when `sw.remaining`
is queried, that error propagates unchanged and carries no byte counts (its
message is a fixed uninterpolated template). -/
theorem timeout_error_reports_remaining (sw : Stopwatch) (now r : Rat)
    (e : PyExc) (s : SelectOutcome) (rest : List Step) (buf : List Nat)
    (size : Int) :
    (sw.remainingAt now = .ok r →
      readLoop sw buf size (Step.mk now .timeoutEmpty :: rest)
        = .err (.timeoutError ("Timeout expired while reading " ++
            toString buf.length ++ "/" ++ toString size ++ " bytes")))
    ∧ (sw.remainingAt now = .error e →
      readLoop sw buf size (Step.mk now s :: rest) = .err e) := by
  constructor
  · intro hok
    simp [readLoop, hok]
  · intro herr
    simp [readLoop, herr]

/-- Witness for the amended C2: with 1 byte accumulated and 6 still wanted,
the no-events timeout reports "1/6"; with the deadline already passed,
the stopwatch's fixed-template error propagates. -/
theorem timeout_error_reports_remaining_witness :
    readLoop (swInit 1 0) [9] 6 [⟨0, .timeoutEmpty⟩]
      = .err (.timeoutError ("Timeout expired while reading " ++
          toString ([9] : List Nat).length ++ "/" ++ toString (6 : Int) ++ " bytes"))
    ∧ readLoop (swInit 1 0) [] 5 [⟨9, .timeoutEmpty⟩]
      = .err (.timeoutError
          "Timeout (\x7btimeout\x7ds) has been surpassed by \x7b-remaining\x7ds") :=
  ⟨(timeout_error_reports_remaining (swInit 1 0) 0 1 .osError .timeoutEmpty [] [9] 6).1
      (by norm_num [swInit, Stopwatch.remainingAt, Stopwatch.elapsedAt,
        Stopwatch.init, Stopwatch.startAt, pyOr]),
    (timeout_error_reports_remaining (swInit 1 0) 9 0
        (.timeoutError "Timeout (\x7btimeout\x7ds) has been surpassed by \x7b-remaining\x7ds")
        .timeoutEmpty [] [] 5).2
      (by norm_num [swInit, Stopwatch.remainingAt, Stopwatch.elapsedAt,
        Stopwatch.init, Stopwatch.startAt, pyOr])⟩

/-! ## Step lemmas for the read loop -/

/-- An exhausted script leaves the loop still running. -/
theorem readLoop_nil (sw : Stopwatch) (buf : List Nat) (size : Int) :
    readLoop sw buf size [] = .outOfScript buf size := rfl

/-- An exception raised by `sw.remaining` propagates out of the loop. -/
theorem readLoop_cons_err (sw : Stopwatch) (step : Step) (rest : List Step)
    (buf : List Nat) (size : Int) (e : PyExc)
    (h : sw.remainingAt step.now = .error e) :
    readLoop sw buf size (step :: rest) = .err e := by
  simp [readLoop, h]

/-- A poll returning no ready events raises the byte-count `TimeoutError`. -/
theorem readLoop_cons_timeout (sw : Stopwatch) (step : Step) (rest : List Step)
    (buf : List Nat) (size : Int) (r : Rat)
    (h : sw.remainingAt step.now = .ok r) (hsel : step.sel = .timeoutEmpty) :
    readLoop sw buf size (step :: rest)
      = .err (.timeoutError ("Timeout expired while reading " ++
          toString buf.length ++ "/" ++ toString size ++ " bytes")) := by
  simp [readLoop, h, hsel]

/-- A failing `os.read` propagates its `OSError` out of the loop. -/
theorem readLoop_cons_oserr (sw : Stopwatch) (step : Step) (rest : List Step)
    (buf : List Nat) (size : Int) (r : Rat)
    (h : sw.remainingAt step.now = .ok r) (hsel : step.sel = .ready .osError) :
    readLoop sw buf size (step :: rest) = .err .osError := by
  simp [readLoop, h, hsel]

/-- A zero-byte read (EOF) returns the accumulated buffer at once. -/
theorem readLoop_cons_eof (sw : Stopwatch) (step : Step) (rest : List Step)
    (buf : List Nat) (size : Int) (r : Rat)
    (h : sw.remainingAt step.now = .ok r) (hsel : step.sel = .ready (.chunk [])) :
    readLoop sw buf size (step :: rest) = .ok buf := by
  simp [readLoop, h, hsel]

/-- A nonempty chunk is appended; the loop then asserts, finishes, or
continues according to the decremented wanted count. -/
theorem readLoop_cons_chunk (sw : Stopwatch) (step : Step) (rest : List Step)
    (buf : List Nat) (size : Int) (r : Rat) (data : List Nat)
    (h : sw.remainingAt step.now = .ok r) (hsel : step.sel = .ready (.chunk data))
    (hd : data ≠ []) :
    readLoop sw buf size (step :: rest)
      = if size - (data.length : Int) < 0 then .err .assertionError
        else if size - (data.length : Int) = 0 then .ok (buf ++ data)
        else readLoop sw (buf ++ data) (size - data.length) rest := by
  simp [readLoop, h, hsel, hd]

/-- Running the loop over `pre ++ rest` when `pre` alone leaves the loop
still running with state `(acc, size2)` is running it over `rest` from that
state. -/
theorem readLoop_append (sw : Stopwatch) :
    ∀ (pre : List Step) (buf acc : List Nat) (size size2 : Int),
      readLoop sw buf size pre = .outOfScript acc size2 →
      ∀ rest, readLoop sw buf size (pre ++ rest) = readLoop sw acc size2 rest := by
  intro pre
  induction pre with
  | nil =>
    intro buf acc size size2 h rest
    rw [readLoop_nil] at h
    cases h
    simp
  | cons step rest2 ih =>
    intro buf acc size size2 h rest
    rw [List.cons_append]
    cases hrem : sw.remainingAt step.now with
    | error e =>
      rw [readLoop_cons_err sw step rest2 buf size e hrem] at h
      exact absurd h (by simp)
    | ok r =>
      cases hsel : step.sel with
      | timeoutEmpty =>
        rw [readLoop_cons_timeout sw step rest2 buf size r hrem hsel] at h
        exact absurd h (by simp)
      | ready rr =>
        cases rr with
        | osError =>
          rw [readLoop_cons_oserr sw step rest2 buf size r hrem hsel] at h
          exact absurd h (by simp)
        | chunk data =>
          by_cases hd : data = []
          · subst hd
            rw [readLoop_cons_eof sw step rest2 buf size r hrem hsel] at h
            exact absurd h (by simp)
          · rw [readLoop_cons_chunk sw step rest2 buf size r data hrem hsel hd] at h
            rw [readLoop_cons_chunk sw step (rest2 ++ rest) buf size r data hrem hsel hd]
            by_cases hneg : size - (data.length : Int) < 0
            · rw [if_pos hneg] at h
              exact absurd h (by simp)
            · rw [if_neg hneg] at h ⊢
              by_cases hz : size - (data.length : Int) = 0
              · rw [if_pos hz] at h
                exact absurd h (by simp)
              · rw [if_neg hz] at h ⊢
                exact ih (buf ++ data) acc (size - data.length) size2 h rest

/-- Claim C4: with valid arguments, whenever the loop reaches an iteration
whose read returns zero bytes (end-of-stream), `nonblocking_read` returns the
bytes accumulated so far - possibly fewer than `size`, possibly empty - as a
normal result (with the selector closed), regardless of the remaining wanted
count `size2` and of whatever timeout budget the remaining script `rest`
would have offered. -/
theorem eof_returns_accumulated (size size2 : Int) (timeout startT now r : Rat)
    (pre rest : List Step) (acc : List Nat)
    (hs : 0 < size) (ht : 0 < timeout)
    (hpre : readLoop (swInit timeout startT) [] size pre = .outOfScript acc size2)
    (hrem : (swInit timeout startT).remainingAt now = .ok r) :
    nonblocking_read false size timeout startT
        (pre ++ Step.mk now (.ready (.chunk [])) :: rest)
      = ⟨.ok acc, true, true⟩ := by
  have h1 : readLoop (swInit timeout startT) [] size
      (pre ++ Step.mk now (.ready (.chunk [])) :: rest)
      = readLoop (swInit timeout startT) acc size2
          (Step.mk now (.ready (.chunk [])) :: rest) :=
    readLoop_append _ pre [] acc size size2 hpre _
  have h2 : readLoop (swInit timeout startT) acc size2
      (Step.mk now (.ready (.chunk [])) :: rest) = .ok acc :=
    readLoop_cons_eof _ _ _ _ _ r hrem rfl
  have h3 : ¬ (size ≤ 0) := not_le.mpr hs
  have h4 : ¬ (timeout ≤ 0) := not_le.mpr ht
  simp only [nonblocking_read, if_neg h3, if_neg h4, Bool.false_eq_true,
    if_false, h1, h2]

/-- Witness for C4: requesting 3 bytes, one ready read yields 1 byte, the
next read yields EOF; the call returns just that byte, selector closed. -/
theorem eof_returns_accumulated_witness :
    nonblocking_read false 3 1 0
        [⟨0, .ready (.chunk [7])⟩, ⟨0, .ready (.chunk [])⟩]
      = ⟨.ok [7], true, true⟩ :=
  eof_returns_accumulated 3 2 1 0 0 1 [⟨0, .ready (.chunk [7])⟩] [] [7]
    (by norm_num) (by norm_num)
    (by norm_num [readLoop, swInit, Stopwatch.remainingAt, Stopwatch.elapsedAt,
      Stopwatch.init, Stopwatch.startAt, pyOr])
    (by norm_num [swInit, Stopwatch.remainingAt, Stopwatch.elapsedAt,
      Stopwatch.init, Stopwatch.startAt, pyOr])

/-! ## Loop invariants -/

/-- `Stopwatch.remaining` never raises an `AssertionError` (only
`RuntimeError` or `TimeoutError`). -/
theorem remainingAt_no_assert (sw : Stopwatch) (now : Rat) :
    sw.remainingAt now ≠ .error .assertionError := by
  cases hto : sw.timeout with
  | none => simp [Stopwatch.remainingAt, hto]
  | some t =>
    cases hst : sw.start_time with
    | none => simp [Stopwatch.remainingAt, Stopwatch.elapsedAt, hto, hst]
    | some st =>
      simp only [Stopwatch.remainingAt, Stopwatch.elapsedAt, hto, hst]
      split_ifs <;> simp

/-- At the entry of every executed loop iteration, the wanted count equals
the original request minus the accumulated length, and is positive, provided
the scripted reads are bounded by their requests. -/
theorem readLoopStates_invariant (sw : Stopwatch) (size0 : Int) :
    ∀ (script : List Step) (buf : List Nat) (size : Int),
      size + (buf.length : Int) = size0 → 0 < size →
      scriptBounded size script = true →
      ∀ p ∈ readLoopStates sw buf size script,
        p.2 = size0 - (p.1 : Int) ∧ 0 ≤ p.2 := by
  intro script
  induction script with
  | nil =>
    intro buf size hinv hpos hb p hp
    simp only [readLoopStates, List.mem_singleton] at hp
    subst hp
    exact ⟨by simp; omega, by simp; omega⟩
  | cons step rest ih =>
    intro buf size hinv hpos hb p hp
    have hbase : p = (buf.length, size) → p.2 = size0 - (p.1 : Int) ∧ 0 ≤ p.2 := by
      intro h
      subst h
      exact ⟨by simp; omega, by simp; omega⟩
    cases hrem : sw.remainingAt step.now with
    | error e =>
      simp only [readLoopStates, hrem, List.mem_cons] at hp
      rcases hp with hp | hp
      · exact hbase hp
      · simp at hp
    | ok r =>
      cases hsel : step.sel with
      | timeoutEmpty =>
        simp only [readLoopStates, hrem, hsel, List.mem_cons] at hp
        rcases hp with hp | hp
        · exact hbase hp
        · simp at hp
      | ready rr =>
        cases rr with
        | osError =>
          simp only [readLoopStates, hrem, hsel, List.mem_cons] at hp
          rcases hp with hp | hp
          · exact hbase hp
          · simp at hp
        | chunk data =>
          by_cases hd : data = []
          · subst hd
            simp only [readLoopStates, hrem, hsel, List.isEmpty_nil,
              if_true, List.mem_cons] at hp
            rcases hp with hp | hp
            · exact hbase hp
            · simp at hp
          · simp only [scriptBounded, hsel, Bool.and_eq_true, Bool.or_eq_true,
              decide_eq_true_eq] at hb
            obtain ⟨hlen, hdis⟩ := hb
            by_cases hz : size - (data.length : Int) = 0
            · have hne : ¬ data.isEmpty := by simpa using hd
              have hneg : ¬ (size - (data.length : Int) < 0) := by omega
              simp only [readLoopStates, hrem, hsel, if_neg hne, if_neg hneg,
                if_pos hz, List.mem_cons] at hp
              rcases hp with hp | hp
              · exact hbase hp
              · simp at hp
            · have hrest : scriptBounded (size - (data.length : Int)) rest = true := by
                rcases hdis with (hdis | hdis) | hdis
                · exact absurd (by simpa using hdis) hd
                · exact absurd hdis hz
                · exact hdis
              have hne : ¬ data.isEmpty := by simpa using hd
              have hneg : ¬ (size - (data.length : Int) < 0) := by omega
              simp only [readLoopStates, hrem, hsel, if_neg hne, if_neg hneg,
                if_neg hz, List.mem_cons] at hp
              rcases hp with hp | hp
              · exact hbase hp
              · refine ih (buf ++ data) (size - data.length) ?_ ?_ hrest p hp
                · simp only [List.length_append]
                  push_cast
                  omega
                · omega

/-- With scripted reads bounded by their requests, the loop never raises the
`AssertionError` of `assert size >= 0`. -/
theorem readLoop_no_assert (sw : Stopwatch) :
    ∀ (script : List Step) (buf : List Nat) (size : Int),
      scriptBounded size script = true →
      readLoop sw buf size script ≠ .err .assertionError := by
  intro script
  induction script with
  | nil =>
    intro buf size hb
    rw [readLoop_nil]
    simp
  | cons step rest ih =>
    intro buf size hb
    cases hrem : sw.remainingAt step.now with
    | error e =>
      rw [readLoop_cons_err sw step rest buf size e hrem]
      intro h
      apply remainingAt_no_assert sw step.now
      rw [hrem]
      cases h
      rfl
    | ok r =>
      cases hsel : step.sel with
      | timeoutEmpty =>
        rw [readLoop_cons_timeout sw step rest buf size r hrem hsel]
        simp
      | ready rr =>
        cases rr with
        | osError =>
          rw [readLoop_cons_oserr sw step rest buf size r hrem hsel]
          simp
        | chunk data =>
          by_cases hd : data = []
          · subst hd
            rw [readLoop_cons_eof sw step rest buf size r hrem hsel]
            simp
          · rw [readLoop_cons_chunk sw step rest buf size r data hrem hsel hd]
            simp only [scriptBounded, hsel, Bool.and_eq_true, Bool.or_eq_true,
              decide_eq_true_eq] at hb
            obtain ⟨hlen, hdis⟩ := hb
            rw [if_neg (by omega)]
            by_cases hz : size - (data.length : Int) = 0
            · rw [if_pos hz]
              simp
            · rw [if_neg hz]
              apply ih
              rcases hdis with (hdis | hdis) | hdis
              · exact absurd (by simpa using hdis) hd
              · exact absurd hdis hz
              · exact hdis

/-- If the loop finishes normally and no read ever returned an empty chunk,
the returned buffer has exactly the originally requested length. -/
theorem readLoop_ok_length (sw : Stopwatch) (size0 : Int) :
    ∀ (script : List Step) (buf out : List Nat) (size : Int),
      size + (buf.length : Int) = size0 →
      scriptBounded size script = true → noEmptyChunks script = true →
      readLoop sw buf size script = .ok out → (out.length : Int) = size0 := by
  intro script
  induction script with
  | nil =>
    intro buf out size hinv hb hne h
    rw [readLoop_nil] at h
    exact absurd h (by simp)
  | cons step rest ih =>
    intro buf out size hinv hb hne h
    cases hrem : sw.remainingAt step.now with
    | error e =>
      rw [readLoop_cons_err sw step rest buf size e hrem] at h
      exact absurd h (by simp)
    | ok r =>
      cases hsel : step.sel with
      | timeoutEmpty =>
        rw [readLoop_cons_timeout sw step rest buf size r hrem hsel] at h
        exact absurd h (by simp)
      | ready rr =>
        cases rr with
        | osError =>
          rw [readLoop_cons_oserr sw step rest buf size r hrem hsel] at h
          exact absurd h (by simp)
        | chunk data =>
          simp only [noEmptyChunks, hsel, Bool.and_eq_true] at hne
          obtain ⟨hd1, hne2⟩ := hne
          have hd : data ≠ [] := by simpa using hd1
          rw [readLoop_cons_chunk sw step rest buf size r data hrem hsel hd] at h
          simp only [scriptBounded, hsel, Bool.and_eq_true, Bool.or_eq_true,
            decide_eq_true_eq] at hb
          obtain ⟨hlen, hdis⟩ := hb
          rw [if_neg (by omega)] at h
          by_cases hz : size - (data.length : Int) = 0
          · rw [if_pos hz] at h
            cases h
            simp only [List.length_append]
            push_cast
            omega
          · rw [if_neg hz] at h
            have hrest : scriptBounded (size - (data.length : Int)) rest = true := by
              rcases hdis with (hdis | hdis) | hdis
              · exact absurd (by simpa using hdis) hd
              · exact absurd hdis hz
              · exact hdis
            refine ih (buf ++ data) out (size - data.length) ?_ hrest hne2 h
            simp only [List.length_append]
            push_cast
            omega

/-- Claim C3: with valid arguments and an OS whose reads are bounded by their
requests and never signal end-of-stream, every loop iteration hands
`os.read` exactly the bytes still wanted (original request minus accumulated
length - in particular never more), and a normal completion returns a buffer
of exactly the originally requested length. -/
theorem read_requests_and_exact_size (size : Int) (timeout startT : Rat)
    (script : List Step) (out : List Nat)
    (hs : 0 < size) (ht : 0 < timeout)
    (hb : scriptBounded size script = true)
    (hne : noEmptyChunks script = true) :
    ((nonblocking_read false size timeout startT script).result = .ok out →
      (out.length : Int) = size)
    ∧ ∀ p ∈ readLoopStates (swInit timeout startT) [] size script,
        p.2 = size - (p.1 : Int) := by
  constructor
  · intro h
    have h3 : ¬ (size ≤ 0) := not_le.mpr hs
    have h4 : ¬ (timeout ≤ 0) := not_le.mpr ht
    simp only [nonblocking_read, if_neg h3, if_neg h4, Bool.false_eq_true,
      if_false] at h
    have h2 : readLoop (swInit timeout startT) [] size script = .ok out := by
      cases hr : readLoop (swInit timeout startT) [] size script with
      | ok buf =>
        rw [hr] at h
        simp only at h
        rw [← h]
      | err e =>
        rw [hr] at h
        simp at h
      | outOfScript buf sz =>
        rw [hr] at h
        simp at h
    exact readLoop_ok_length (swInit timeout startT) size script [] out size
      (by simp) hb hne h2
  · intro p hp
    exact (readLoopStates_invariant (swInit timeout startT) size script [] size
      (by simp) hs hb p hp).1

/-- Witness for C3: requesting 2 bytes and receiving them in two 1-byte
chunks, the iteration states are (0 accumulated, 2 wanted) then
(1 accumulated, 1 wanted), and the returned buffer has length 2. -/
theorem read_requests_and_exact_size_witness :
    (((nonblocking_read false 2 1 0
        [⟨0, .ready (.chunk [5])⟩, ⟨0, .ready (.chunk [6])⟩]).result
      = .ok [5, 6] → (([5, 6] : List Nat).length : Int) = 2))
    ∧ ∀ p ∈ readLoopStates (swInit 1 0) [] 2
        [⟨0, .ready (.chunk [5])⟩, ⟨0, .ready (.chunk [6])⟩],
        p.2 = 2 - (p.1 : Int) :=
  read_requests_and_exact_size 2 1 0
    [⟨0, .ready (.chunk [5])⟩, ⟨0, .ready (.chunk [6])⟩] [5, 6]
    (by norm_num) (by norm_num) (by rfl) (by rfl)

/-- Claim C8: with valid arguments and an OS whose reads are bounded by their
requests, at the entry of every executed loop iteration the wanted count
equals the original size minus the accumulated length and is never negative,
and `readLoop` never raises the `AssertionError` of `assert size >= 0`. -/
theorem loop_invariant_and_assert (size : Int) (timeout startT : Rat)
    (script : List Step) (hs : 0 < size)
    (hb : scriptBounded size script = true) :
    (∀ p ∈ readLoopStates (swInit timeout startT) [] size script,
        p.2 = size - (p.1 : Int) ∧ 0 ≤ p.2)
    ∧ readLoop (swInit timeout startT) [] size script ≠ .err .assertionError := by
  constructor
  · intro p hp
    exact readLoopStates_invariant (swInit timeout startT) size script [] size
      (by simp) hs hb p hp
  · exact readLoop_no_assert (swInit timeout startT) script [] size hb

/-- Witness for C8: requesting 3 bytes with a 2-byte chunk arriving and then
a timeout, the iteration states satisfy the invariant and the run raises a
`TimeoutError`, not an `AssertionError`. -/
theorem loop_invariant_and_assert_witness :
    (∀ p ∈ readLoopStates (swInit 1 0) [] 3
        [⟨0, .ready (.chunk [4, 5])⟩, ⟨0, .timeoutEmpty⟩],
        p.2 = 3 - (p.1 : Int) ∧ 0 ≤ p.2)
    ∧ readLoop (swInit 1 0) [] 3
        [⟨0, .ready (.chunk [4, 5])⟩, ⟨0, .timeoutEmpty⟩]
      ≠ .err .assertionError :=
  loop_invariant_and_assert 3 1 0
    [⟨0, .ready (.chunk [4, 5])⟩, ⟨0, .timeoutEmpty⟩]
    (by norm_num) (by rfl)
